import Mathlib

/-!
Verification of the response-evaluation engine of `src/evaluator.py`
(`ResponseEvaluator` and `create_evaluation_summary`).

Python strings are modelled as `List Char`; Python numbers as `ℕ`, `ℤ` and `ℚ`
(CPython floats are modelled by exact rationals); Python `None` and absent
dictionary keys as `Option`.  Every definition in the "embedding" sections is a
direct translation of the corresponding Python function.
-/

namespace LLMLab

/-! ### Python string primitives -/

/-- Python `str.lower()` (ASCII case folding, as used by the evaluator's
inputs). -/
def pyLower (s : List Char) : List Char := s.map Char.toLower

/-- Helper for `pySplit`: walks the string accumulating the current word
(reversed) in `acc`. -/
def pySplitAux : List Char → List Char → List (List Char)
  | [], acc => if acc.isEmpty then [] else [acc.reverse]
  | c :: cs, acc =>
    if c.isWhitespace then
      if acc.isEmpty then pySplitAux cs [] else acc.reverse :: pySplitAux cs []
    else pySplitAux cs (c :: acc)

/-- Python `str.split()` with no argument: split on runs of whitespace,
discarding empty pieces. -/
def pySplit (s : List Char) : List (List Char) := pySplitAux s []

/-- Auxiliary boolean test: `needle` begins the list `hay`. -/
def listPrefixEq : List Char → List Char → Bool
  | [], _ => true
  | _ :: _, [] => false
  | a :: as, b :: bs => a == b && listPrefixEq as bs

/-- Python's substring operator `needle in hay` on strings: `needle` occurs
contiguously inside `hay`. -/
def subIn (needle hay : List Char) : Bool :=
  match hay with
  | [] => listPrefixEq needle []
  | _ :: t => listPrefixEq needle hay || subIn needle t

theorem listPrefixEq_iff : ∀ (n h : List Char), listPrefixEq n h = true ↔ ∃ t, n ++ t = h
  | [], h => by simp [listPrefixEq]
  | a :: as, [] => by simp [listPrefixEq]
  | a :: as, b :: bs => by
    simp only [listPrefixEq, Bool.and_eq_true, beq_iff_eq, listPrefixEq_iff as bs,
      List.cons_append, List.cons.injEq]
    constructor
    · rintro ⟨hab, t, ht⟩; exact ⟨t, hab, ht⟩
    · rintro ⟨t, hab, ht⟩; exact ⟨hab, t, ht⟩

/-- `subIn` decides contiguous-substring occurrence. -/
theorem subIn_eq_true_iff : ∀ (n h : List Char), subIn n h = true ↔ ∃ s t, s ++ n ++ t = h
  | n, [] => by
    simp [subIn, listPrefixEq_iff n [], List.append_eq_nil]
  | n, c :: t => by
    simp only [subIn, Bool.or_eq_true, listPrefixEq_iff n (c :: t), subIn_eq_true_iff n t]
    constructor
    · rintro (⟨u, hu⟩ | ⟨s, u, hu⟩)
      · exact ⟨[], u, by simpa using hu⟩
      · exact ⟨c :: s, u, by simp [List.cons_append, hu]⟩
    · rintro ⟨s, u, hu⟩
      cases s with
      | nil => exact Or.inl ⟨u, by simpa using hu⟩
      | cons c' s' =>
        rw [List.cons_append, List.cons_append] at hu
        injection hu with h1 h2
        exact Or.inr ⟨s', u, h2⟩

/-- The specification-side substring relation: `needle` occurs contiguously in
`hay`. -/
def Contains (hay needle : List Char) : Prop := ∃ s t, s ++ needle ++ t = hay

instance (hay needle : List Char) : Decidable (Contains hay needle) :=
  decidable_of_iff (subIn needle hay = true) (subIn_eq_true_iff needle hay)

/-! ### Rounding

CPython's `round(x, d)` rounds to the nearest multiple of `10⁻ᵈ`, ties to the
even digit; it is modelled here over exact rationals. -/

/-- Round to the nearest integer, ties to even. -/
def roundHalfEven (q : ℚ) : ℤ :=
  if q - ⌊q⌋ < 1/2 then ⌊q⌋
  else if (1 : ℚ)/2 < q - ⌊q⌋ then ⌊q⌋ + 1
  else if ⌊q⌋ % 2 = 0 then ⌊q⌋ else ⌊q⌋ + 1

/-- Python `round(q, d)`. -/
def roundTo (d : ℕ) (q : ℚ) : ℚ := (roundHalfEven (q * 10 ^ d) : ℚ) / 10 ^ d

/-! ### Embedding: keyword matching (`evaluate_accuracy` / `evaluate_completeness`) -/

/-- The keyword tokens of a criterion: `criterion.lower().split()`. -/
def criterionKeywords (criterion : List Char) : List (List Char) :=
  pySplit (pyLower criterion)

/-- The matching test of `evaluate_accuracy` (evaluator.py:39-40) and
`evaluate_completeness` (evaluator.py:73-74):
`any(kw in response_lower for kw in criterion.lower().split())`. -/
def kwMatch (response_lower criterion : List Char) : Bool :=
  (criterionKeywords criterion).any (fun kw => subIn kw response_lower)

/-- Result dictionary of `evaluate_accuracy` (evaluator.py:54-59). -/
structure AccuracyResult where
  score : ℕ
  ratio : ℚ
  matched_criteria : List (List Char)
  missing_criteria : List (List Char)
deriving DecidableEq

/-- `ResponseEvaluator.evaluate_accuracy` (evaluator.py:26-59); the criteria
list is the store loaded at construction. -/
def evaluate_accuracy (accuracy_criteria : List (List Char)) (response : List Char) :
    AccuracyResult :=
  let response_lower := pyLower response
  let matched := accuracy_criteria.filter (fun c => kwMatch response_lower c)
  let missing := accuracy_criteria.filter (fun c => ! kwMatch response_lower c)
  let ratio : ℚ :=
    if accuracy_criteria.isEmpty then 0
    else (matched.length : ℚ) / (accuracy_criteria.length : ℚ)
  let score : ℕ := if (4 : ℚ)/5 ≤ ratio then 2 else if (2 : ℚ)/5 ≤ ratio then 1 else 0
  { score := score
    ratio := roundTo 2 ratio
    matched_criteria := matched
    missing_criteria := missing }

/-- Result dictionary of `evaluate_completeness` (evaluator.py:81-85). -/
structure CompletenessResult where
  percentage : ℚ
  covered_items : List (List Char)
  missing_items : List (List Char)
deriving DecidableEq

/-- `ResponseEvaluator.evaluate_completeness` (evaluator.py:61-85). -/
def evaluate_completeness (completeness_checklist : List (List Char)) (response : List Char) :
    CompletenessResult :=
  let response_lower := pyLower response
  let covered := completeness_checklist.filter (fun c => kwMatch response_lower c)
  let missing := completeness_checklist.filter (fun c => ! kwMatch response_lower c)
  let percentage : ℚ :=
    if completeness_checklist.isEmpty then 0
    else (covered.length : ℚ) / (completeness_checklist.length : ℚ) * 100
  { percentage := roundTo 1 percentage
    covered_items := covered
    missing_items := missing }

/-! ### Specification-side formulation of keyword matching -/

/-- Spec 4.2: the case-folded response contains at least one of the criterion's
whitespace-delimited, case-folded keyword tokens as a substring. -/
def SpecMatched (response criterion : List Char) : Prop :=
  ∃ kw ∈ criterionKeywords criterion, Contains (pyLower response) kw

instance (response criterion : List Char) : Decidable (SpecMatched response criterion) :=
  inferInstanceAs (Decidable (∃ kw ∈ criterionKeywords criterion, Contains (pyLower response) kw))

theorem kwMatch_eq_true_iff (response criterion : List Char) :
    kwMatch (pyLower response) criterion = true ↔ SpecMatched response criterion := by
  simp only [kwMatch, List.any_eq_true, SpecMatched]
  constructor
  · rintro ⟨kw, hkw, hs⟩; exact ⟨kw, hkw, (subIn_eq_true_iff kw _).mp hs⟩
  · rintro ⟨kw, hkw, hc⟩; exact ⟨kw, hkw, (subIn_eq_true_iff kw _).mpr hc⟩

theorem kwMatch_eq_decide (r c : List Char) :
    kwMatch (pyLower r) c = decide (SpecMatched r c) := by
  by_cases h : SpecMatched r c
  · rw [decide_eq_true h, (kwMatch_eq_true_iff r c).mpr h]
  · rw [decide_eq_false h]
    cases hk : kwMatch (pyLower r) c with
    | false => rfl
    | true => exact absurd ((kwMatch_eq_true_iff r c).mp hk) h

/-- Spec 4.2: `ratio = matchedCount / totalCriteria`, `0` when no criteria
exist, with matching as in `SpecMatched`. -/
def specAccuracyRatio (accuracy_criteria : List (List Char)) (response : List Char) : ℚ :=
  if accuracy_criteria = [] then 0
  else ((accuracy_criteria.countP (fun c => decide (SpecMatched response c))) : ℚ) /
    (accuracy_criteria.length : ℚ)

/-- Spec 4.2: the two fixed policy thresholds mapping ratio to ordinal score. -/
def specScore (ratio : ℚ) : ℕ :=
  if (4 : ℚ)/5 ≤ ratio then 2 else if (2 : ℚ)/5 ≤ ratio then 1 else 0

-- scratch checks (spec.md section 8 example)
example :
    (evaluate_accuracy [("reorder point".data), ("safety stock".data)]
      ("The reorder point is definitely 42% better and could reduce costs.".data)).matched_criteria
      = [("reorder point".data)] := by decide

example : roundTo 2 ((1 : ℚ)/2) = 1/2 := by norm_num [roundTo, roundHalfEven]

example : roundTo 2 ((1 : ℚ)/3) = 33/100 := by norm_num [roundTo, roundHalfEven]

example : roundTo 1 ((1 : ℚ)/3 * 100) = 333/10 := by norm_num [roundTo, roundHalfEven]

example : roundTo 1 ((1 : ℚ)/16 * 100) = 62/10 := by norm_num [roundTo, roundHalfEven]

example : roundTo 2 (0 : ℚ) = 0 := by norm_num [roundTo, roundHalfEven]

/-! ### Embedding: `evaluate_token_efficiency` -/

/-- Result dictionary of `evaluate_token_efficiency` (evaluator.py:105-110). -/
structure TokenEfficiencyResult where
  token_count : ℤ
  word_count : ℕ
  words_per_token : ℚ
  efficiency_rating : String
deriving DecidableEq

/-- `ResponseEvaluator.evaluate_token_efficiency` (evaluator.py:87-110). -/
def evaluate_token_efficiency (response : List Char) (token_count : ℤ) :
    TokenEfficiencyResult :=
  let word_count := (pySplit response).length
  let words_per_token : ℚ :=
    if 0 < token_count then (word_count : ℚ) / (token_count : ℚ) else 0
  let rating : String :=
    if token_count < 200 then "Concise"
    else if token_count < 500 then "Moderate"
    else "Verbose"
  { token_count := token_count
    word_count := word_count
    words_per_token := roundTo 2 words_per_token
    efficiency_rating := rating }

/-! ### Regex model for the hallucination pattern

`detect_failure_behaviors` (evaluator.py:136) counts the matches of
`re.findall` with the pattern
`\b\d{2,}\s*%\b|\b\$\d+(?:,\d+)*(?:\.\d+)?\s*(?:million|billion)?\b`
on the raw (not case-folded) response.  The model below is a faithful
backtracking matcher for exactly this pattern: a matcher maps a state to the
list of possible successor states in the engine's preference order (greedy
quantifiers longest first, alternation left first), and the scan takes the
first overall success at the leftmost position, resuming after the match, as
`re.findall` does.  The character classes are the ASCII cores of `\d`, `\s`
and `\w`. -/

def isWordChar (c : Char) : Bool := c.isAlphanum || c = '_'

def optWord : Option Char → Bool
  | Option.none => false
  | some c => isWordChar c

/-- A word boundary sits between a word character and a non-word character
(string ends count as non-word). -/
def wordBoundary (prev next : Option Char) : Bool := optWord prev != optWord next

/-- Matcher state: the characters already consumed (reversed, including all
text before the match start) paired with the remaining input. -/
abbrev MState := List Char × List Char

/-- `\b` -/
def mBoundary (s : MState) : List MState :=
  if wordBoundary s.1.head? s.2.head? then [s] else []

/-- one character of class `p` -/
def mChar (p : Char → Bool) (s : MState) : List MState :=
  match s.2 with
  | [] => []
  | c :: rest => if p c then [(c :: s.1, rest)] else []

/-- a literal string -/
def mLit (lit : List Char) (s : MState) : List MState :=
  if listPrefixEq lit s.2 then [((s.2.take lit.length).reverse ++ s.1, s.2.drop lit.length)]
  else []

/-- consume exactly `i` characters -/
def mAdvance (i : ℕ) (s : MState) : MState := ((s.2.take i).reverse ++ s.1, s.2.drop i)

/-- greedy `p{n,}`: runs of class `p`, longest first, at least `n` long -/
def mRepGE (n : ℕ) (p : Char → Bool) (s : MState) : List MState :=
  let k := (s.2.takeWhile p).length
  if k < n then []
  else (List.range (k + 1 - n)).map (fun j => mAdvance (k - j) s)

/-- greedy `p*` -/
def mStar (p : Char → Bool) (s : MState) : List MState := mRepGE 0 p s

def mSeq (m1 m2 : MState → List MState) (s : MState) : List MState :=
  (m1 s).flatMap m2

def mAlt (m1 m2 : MState → List MState) (s : MState) : List MState := m1 s ++ m2 s

/-- greedy `m?` -/
def mOpt (m : MState → List MState) (s : MState) : List MState := m s ++ [s]

/-- greedy `m*` for a submatcher, fuelled (every iteration of the submatchers
used here consumes at least one character, so fuel `s.2.length` is enough) -/
def mMany (m : MState → List MState) : ℕ → MState → List MState
  | 0, s => [s]
  | fuel + 1, s => ((m s).flatMap (mMany m fuel)) ++ [s]

/-- `\b\d{2,}\s*%\b` -/
def pctAlt : MState → List MState :=
  mSeq mBoundary <| mSeq (mRepGE 2 Char.isDigit) <| mSeq (mStar Char.isWhitespace) <|
    mSeq (mChar (fun c => c = '%')) mBoundary

/-- `,\d+` -/
def commaDigits : MState → List MState :=
  mSeq (mChar (fun c => c = ',')) (mRepGE 1 Char.isDigit)

/-- `\b\$\d+(?:,\d+)*(?:\.\d+)?\s*(?:million|billion)?\b` -/
def dollarAlt : MState → List MState :=
  mSeq mBoundary <| mSeq (mChar (fun c => c = '$')) <| mSeq (mRepGE 1 Char.isDigit) <|
    mSeq (fun s => mMany commaDigits s.2.length s) <|
    mSeq (mOpt (mSeq (mChar (fun c => c = '.')) (mRepGE 1 Char.isDigit))) <|
    mSeq (mStar Char.isWhitespace) <|
    mSeq (mOpt (mAlt (mLit ("million".data)) (mLit ("billion".data)))) mBoundary

/-- the whole alternation -/
def statRegex : MState → List MState := mAlt pctAlt dollarAlt

/-- `re.findall` match count: scan left to right, count the leftmost match and
resume after its end. -/
def statScan : ℕ → MState → ℕ
  | 0, _ => 0
  | fuel + 1, s =>
    match statRegex s with
    | [] =>
      match s.2 with
      | [] => 0
      | c :: rest => statScan fuel (c :: s.1, rest)
    | s' :: _ =>
      let consumed := s.2.length - s'.2.length
      if consumed = 0 then
        match s.2 with
        | [] => 1
        | c :: rest => 1 + statScan fuel (c :: s.1, rest)
      else 1 + statScan fuel s'

/-- Number of matches of the statistics pattern in the response
(`len(re.findall(..., response))`). -/
def hallucinationStatCount (response : List Char) : ℕ :=
  statScan (response.length + 1) ([], response)

-- scratch: the model agrees with CPython's `re.findall` on all of these
example : hallucinationStatCount ("10% 20% 30% 40%".data) = 0 := by decide
example : hallucinationStatCount ("45%".data) = 0 := by decide
example : hallucinationStatCount ("45%x".data) = 1 := by decide
example : hallucinationStatCount ("$1,200".data) = 0 := by decide
example : hallucinationStatCount ("a$1,200x".data) = 1 := by decide
example : hallucinationStatCount ("$100  ".data) = 0 := by decide
example : hallucinationStatCount ("x$100 million".data) = 1 := by decide
example : hallucinationStatCount ("$100 mill".data) = 0 := by decide
example : hallucinationStatCount ("has 45% and $1,200 in it".data) = 0 := by decide
example : hallucinationStatCount ("a10%b c20%d e30%f g40%h".data) = 0 := by decide
example : hallucinationStatCount ("100$200".data) = 1 := by decide
example : hallucinationStatCount ("a$100 b$200 c$300 d$400".data) = 4 := by decide
example : hallucinationStatCount (" 10%b".data) = 1 := by decide
example : hallucinationStatCount ("x$100  ".data) = 1 := by decide
example : hallucinationStatCount ("12 34%x".data) = 1 := by decide
example : hallucinationStatCount ("99%9".data) = 1 := by decide
example : hallucinationStatCount ("a$1,2,30.5billionx".data) = 1 := by decide
example : hallucinationStatCount ("$".data) = 0 := by decide
example : hallucinationStatCount ("%%".data) = 0 := by decide
example : hallucinationStatCount ("x$5.25 milliony".data) = 1 := by decide
example : hallucinationStatCount ("x$5.25 million y".data) = 1 := by decide
example : hallucinationStatCount ("x$7billion".data) = 1 := by decide
example : hallucinationStatCount ("($400)".data) = 0 := by decide
example : hallucinationStatCount (" 45 %b".data) = 1 := by decide
example : hallucinationStatCount ("45  %b".data) = 1 := by decide
example : hallucinationStatCount (".$1.z".data) = 0 := by decide
example : hallucinationStatCount ("b$1.5".data) = 1 := by decide
example : hallucinationStatCount ("1234%x".data) = 1 := by decide
example : hallucinationStatCount ("a$100,200x".data) = 1 := by decide

/-! ### Embedding: `detect_failure_behaviors` -/

/-- One detected issue (the dictionaries appended in evaluator.py:128-160). -/
structure Issue where
  type : String
  description : String
  severity : String
deriving DecidableEq

/-- evaluator.py:123-126 -/
def overconfidence_phrases : List (List Char) :=
  [("definitely".data), ("certainly".data), ("absolutely".data), ("without a doubt".data),
   ("always".data), ("never".data), ("guaranteed".data)]

/-- evaluator.py:154 -/
def hedging_phrases : List (List Char) :=
  [("may".data), ("might".data), ("could".data), ("typically".data), ("often".data),
   ("generally".data), ("depending on".data)]

/-- Result dictionary of `detect_failure_behaviors` (evaluator.py:162-166). -/
structure FailureBehaviorsResult where
  issues : List Issue
  issue_count : ℕ
  has_critical_issues : Bool
deriving DecidableEq

/-- `ResponseEvaluator.detect_failure_behaviors` (evaluator.py:112-166). -/
def detect_failure_behaviors (response : List Char) : FailureBehaviorsResult :=
  let response_lower := pyLower response
  let overconfIssues : List Issue :=
    if overconfidence_phrases.any (fun p => subIn p response_lower) then
      [{ type := "Overconfidence"
         description := "Response uses absolute language without hedging uncertainty"
         severity := "Medium" }]
    else []
  let statCount := hallucinationStatCount response
  let hallucinationIssues : List Issue :=
    if 3 < statCount then
      [{ type := "Potential Hallucination"
         description := "Response contains " ++ toString statCount ++
           " specific statistics that may need verification"
         severity := "High" }]
    else []
  let word_count := (pySplit response).length
  let elaborationIssues : List Issue :=
    if 600 < word_count then
      [{ type := "Over-elaboration"
         description := "Response is " ++ toString word_count ++ " words, potentially too verbose"
         severity := "Low" }]
    else []
  let hedgingIssues : List Issue :=
    if !(hedging_phrases.any (fun p => subIn p response_lower)) then
      [{ type := "Missing Uncertainty Language"
         description := "Response lacks hedging language for uncertain claims"
         severity := "Medium" }]
    else []
  let issues := overconfIssues ++ hallucinationIssues ++ elaborationIssues ++ hedgingIssues
  { issues := issues
    issue_count := issues.length
    has_critical_issues := issues.any (fun i => i.severity == "High") }

/-! ### Embedding: `full_evaluation` -/

/-- The `summary` sub-dictionary (evaluator.py:191-196). -/
structure EvaluationSummary where
  accuracy_score : ℕ
  completeness_pct : ℚ
  token_count : ℤ
  issue_count : ℕ
deriving DecidableEq

/-- Result of `full_evaluation` (evaluator.py:185-197). -/
structure FullEvaluation where
  accuracy : AccuracyResult
  completeness : CompletenessResult
  token_efficiency : TokenEfficiencyResult
  failure_behaviors : FailureBehaviorsResult
  clarity_score : Option ℤ
  summary : EvaluationSummary
deriving DecidableEq

/-- `ResponseEvaluator.full_evaluation` (evaluator.py:168-197). -/
def full_evaluation (accuracy_criteria completeness_checklist : List (List Char))
    (response : List Char) (token_count : ℤ) (clarity_score : Option ℤ) : FullEvaluation :=
  let accuracy := evaluate_accuracy accuracy_criteria response
  let completeness := evaluate_completeness completeness_checklist response
  let efficiency := evaluate_token_efficiency response token_count
  let failures := detect_failure_behaviors response
  { accuracy := accuracy
    completeness := completeness
    token_efficiency := efficiency
    failure_behaviors := failures
    clarity_score := clarity_score
    summary :=
      { accuracy_score := accuracy.score
        completeness_pct := completeness.percentage
        token_count := efficiency.token_count
        issue_count := failures.issue_count } }

/-! ### Embedding: `create_evaluation_summary`

The aggregator reads dynamically-typed dictionaries, so its input is modelled
with optional fields: `Option.none` at the outer level of `clarity_score`
means the key is absent, `some Option.none` means the key is present with the
Python value `None` (as `full_evaluation` emits when no clarity score is
supplied).  Cell values of the produced rows are Python scalars. -/

/-- A Python scalar appearing in a summary row. -/
inductive PyVal where
  | nat (n : ℕ)
  | int (n : ℤ)
  | rat (q : ℚ)
  | str (s : String)
  | none
deriving DecidableEq

/-- A possibly-partial `summary` dictionary (each field may be missing). -/
structure SummaryOpt where
  accuracy_score : Option ℕ
  completeness_pct : Option ℚ
  token_count : Option ℤ
  issue_count : Option ℕ
deriving DecidableEq

/-- `{}`: the default for a missing `summary` key. -/
def SummaryOpt.empty : SummaryOpt := ⟨Option.none, Option.none, Option.none, Option.none⟩

/-- A possibly-partial evaluation record as consumed by the aggregator. -/
structure EvalResultIn where
  summary : Option SummaryOpt
  clarity_score : Option (Option ℤ)
deriving DecidableEq

/-- One row of the aggregator's output (evaluator.py:213-220). -/
structure SummaryRow where
  variant : String
  accuracy : PyVal
  completeness : PyVal
  token_count : PyVal
  issues_found : PyVal
  clarity : PyVal
deriving DecidableEq

/-- The loop body of `create_evaluation_summary` (evaluator.py:211-220):
`summary.get(key, 'N/A')` for the four metric columns,
`eval_result.get('clarity_score', 'TBD')` for the clarity column. -/
def evalRow (entry : String × EvalResultIn) : SummaryRow :=
  let summary := entry.2.summary.getD SummaryOpt.empty
  { variant := entry.1
    accuracy :=
      match summary.accuracy_score with
      | Option.none => PyVal.str ("N/A")
      | some n => PyVal.nat n
    completeness :=
      match summary.completeness_pct with
      | Option.none => PyVal.str ("N/A")
      | some q => PyVal.rat q
    token_count :=
      match summary.token_count with
      | Option.none => PyVal.str ("N/A")
      | some n => PyVal.int n
    issues_found :=
      match summary.issue_count with
      | Option.none => PyVal.str ("N/A")
      | some n => PyVal.nat n
    clarity :=
      match entry.2.clarity_score with
      | Option.none => PyVal.str ("TBD")
      | some (Option.none) => PyVal.none
      | some (some n) => PyVal.int n }

/-- `create_evaluation_summary` (evaluator.py:200-221); the input association
list models the insertion-ordered Python dict. -/
def create_evaluation_summary (evaluations : List (String × EvalResultIn)) : List SummaryRow :=
  evaluations.map evalRow

/-- How a record produced by `full_evaluation` appears to the aggregator:
every key is present; in particular the `clarity_score` key is always present,
with value `None` when no clarity score was supplied. -/
def toEvalInput (r : FullEvaluation) : EvalResultIn :=
  { summary := some
      { accuracy_score := some r.summary.accuracy_score
        completeness_pct := some r.summary.completeness_pct
        token_count := some r.summary.token_count
        issue_count := some r.summary.issue_count }
    clarity_score := some r.clarity_score }

/-! ### Remaining specification-side definitions -/

/-- Spec 4.3: `coveredCount / totalChecklist * 100`, rounded to one decimal,
`0` when the checklist is empty, with matching as in `SpecMatched`. -/
def specCompletenessPct (completeness_checklist : List (List Char)) (response : List Char) : ℚ :=
  if completeness_checklist = [] then 0
  else roundTo 1
    (((completeness_checklist.countP (fun c => decide (SpecMatched response c))) : ℚ) /
      (completeness_checklist.length : ℚ) * 100)

/-- The issue types a response is flagged with, in emission order. -/
def issueTypes (response : List Char) : List String :=
  (detect_failure_behaviors response).issues.map (fun i => i.type)

/-! ### Helper lemmas -/

theorem toLower_isWhitespace (c : Char) (h : c.isWhitespace = true) :
    (Char.toLower c).isWhitespace = true := by
  have h4 : ((c = ' ' ∨ c = '\t') ∨ c = '\r') ∨ c = '\n' := by
    simpa [Char.isWhitespace, Bool.or_eq_true, decide_eq_true_eq] using h
  rcases h4 with ((rfl | rfl) | rfl) | rfl <;> decide

theorem pySplitAux_eq_nil : ∀ (s : List Char), (∀ c ∈ s, c.isWhitespace = true) →
    pySplitAux s [] = []
  | [], _ => rfl
  | c :: cs, h => by
    have hc : c.isWhitespace = true := h c (List.mem_cons_self c cs)
    have ih := pySplitAux_eq_nil cs (fun d hd => h d (List.mem_cons_of_mem c hd))
    simp [pySplitAux, hc, ih]

/-- The issue list of `detect_failure_behaviors`, by type, as a concatenation
of the four independent checks. -/
theorem issueTypes_eq (response : List Char) :
    issueTypes response
      = (if overconfidence_phrases.any (fun p => subIn p (pyLower response)) then
          ["Overconfidence"] else [])
        ++ (if 3 < hallucinationStatCount response then ["Potential Hallucination"] else [])
        ++ (if 600 < (pySplit response).length then ["Over-elaboration"] else [])
        ++ (if !(hedging_phrases.any (fun p => subIn p (pyLower response))) then
          ["Missing Uncertainty Language"] else []) := by
  simp only [issueTypes, detect_failure_behaviors, List.map_append,
    apply_ite (List.map (fun i : Issue => i.type)), List.map_cons, List.map_nil]

/-! ### Claim theorems -/

/-- Claim C1: `evaluate_accuracy` classifies a criterion as matched exactly
when the case-folded response contains at least one of the criterion's
whitespace-delimited, case-folded keyword tokens as a substring, computes
`ratio = matchedCount / totalCriteria` (`0` for an empty criteria list), and
maps the ratio to the score through the fixed thresholds
`ratio ≥ 0.8 → 2`, `0.4 ≤ ratio < 0.8 → 1`, otherwise `0`. -/
theorem accuracy_matches_spec (accuracy_criteria : List (List Char)) (response : List Char) :
    (evaluate_accuracy accuracy_criteria response).matched_criteria
        = accuracy_criteria.filter (fun c => decide (SpecMatched response c))
  ∧ (evaluate_accuracy accuracy_criteria response).missing_criteria
        = accuracy_criteria.filter (fun c => !(decide (SpecMatched response c)))
  ∧ (evaluate_accuracy accuracy_criteria response).score
        = specScore (specAccuracyRatio accuracy_criteria response)
  ∧ specAccuracyRatio [] response = 0 := by
  have hf : ∀ c ∈ accuracy_criteria, kwMatch (pyLower response) c
      = decide (SpecMatched response c) := fun c _ => kwMatch_eq_decide response c
  have h1 : accuracy_criteria.filter (fun c => kwMatch (pyLower response) c)
      = accuracy_criteria.filter (fun c => decide (SpecMatched response c)) :=
    List.filter_congr hf
  have h2 : accuracy_criteria.filter (fun c => ! kwMatch (pyLower response) c)
      = accuracy_criteria.filter (fun c => !(decide (SpecMatched response c))) :=
    List.filter_congr (fun c hc => by rw [hf c hc])
  have hratio : (if accuracy_criteria.isEmpty then (0 : ℚ)
      else ((accuracy_criteria.filter (fun c => kwMatch (pyLower response) c)).length : ℚ)
        / (accuracy_criteria.length : ℚ))
      = specAccuracyRatio accuracy_criteria response := by
    simp only [h1, specAccuracyRatio, List.countP_eq_length_filter, List.isEmpty_iff]
  have hscore : (evaluate_accuracy accuracy_criteria response).score
      = specScore (if accuracy_criteria.isEmpty then (0 : ℚ)
        else ((accuracy_criteria.filter (fun c => kwMatch (pyLower response) c)).length : ℚ)
          / (accuracy_criteria.length : ℚ)) := rfl
  refine ⟨h1, h2, ?_, by simp [specAccuracyRatio]⟩
  rw [hscore, hratio]

/-- Claim C2: the `summary` fields of a `full_evaluation` record are pure
read-through copies of the corresponding nested metric fields. -/
theorem summary_fields_read_through (accuracy_criteria completeness_checklist : List (List Char))
    (response : List Char) (token_count : ℤ) (clarity_score : Option ℤ) :
    (full_evaluation accuracy_criteria completeness_checklist response token_count
        clarity_score).summary.accuracy_score
      = (full_evaluation accuracy_criteria completeness_checklist response token_count
        clarity_score).accuracy.score
  ∧ (full_evaluation accuracy_criteria completeness_checklist response token_count
        clarity_score).summary.completeness_pct
      = (full_evaluation accuracy_criteria completeness_checklist response token_count
        clarity_score).completeness.percentage
  ∧ (full_evaluation accuracy_criteria completeness_checklist response token_count
        clarity_score).summary.token_count
      = (full_evaluation accuracy_criteria completeness_checklist response token_count
        clarity_score).token_efficiency.token_count
  ∧ (full_evaluation accuracy_criteria completeness_checklist response token_count
        clarity_score).summary.issue_count
      = (full_evaluation accuracy_criteria completeness_checklist response token_count
        clarity_score).failure_behaviors.issue_count :=
  ⟨rfl, rfl, rfl, rfl⟩

/-- Claim C3 (code bug): the regex of the Potential Hallucination check puts a
word boundary right after the `%` and right before the `$`, so the standalone
fragments the claim describes are never counted: on `"10% 20% 30% 40%"` (four
standalone percentage fragments separated by spaces) the count is `0` and no
Potential Hallucination issue is emitted, while four dollar amounts each glued
to a preceding word character are counted and do trigger the issue. -/
theorem hallucination_regex_misses_standalone_stats :
    hallucinationStatCount ("10% 20% 30% 40%".data) = 0
  ∧ "Potential Hallucination" ∉ issueTypes ("10% 20% 30% 40%".data)
  ∧ (detect_failure_behaviors ("10% 20% 30% 40%".data)).has_critical_issues = false
  ∧ hallucinationStatCount ("a$100 b$200 c$300 d$400".data) = 4
  ∧ "Potential Hallucination" ∈ issueTypes ("a$100 b$200 c$300 d$400".data) := by
  refine ⟨by decide, by decide, by decide, by decide, by decide⟩

/-- Claim C4 counterexample: a record produced by `full_evaluation` without a
clarity score has the `clarity_score` key present with value `None`, so the
aggregator's clarity cell is `None`, not the sentinel `"TBD"` the claim
asserts. -/
theorem aggregator_clarity_counterexample :
    (create_evaluation_summary
        [("variant_1", toEvalInput (full_evaluation [] [] [] 0 Option.none))]).map
        (fun row => row.clarity)
      = [PyVal.none]
  ∧ PyVal.none ≠ PyVal.str ("TBD") :=
  ⟨rfl, by decide⟩

/-- Claim C4 as amended: `create_evaluation_summary` returns one row per entry
(none for the empty mapping); a metric column carries `"N/A"` when the
corresponding `summary` sub-field is missing; the clarity column carries
`"TBD"` exactly when the `clarity_score` key is absent, and carries the value
`None` when the key is present with value `None` — which is how every record
of `full_evaluation` without a clarity score reaches the aggregator. -/
theorem aggregator_rows_spec (evaluations : List (String × EvalResultIn)) :
    (create_evaluation_summary evaluations).length = evaluations.length
  ∧ create_evaluation_summary ([] : List (String × EvalResultIn)) = []
  ∧ (∀ entry ∈ evaluations, evalRow entry ∈ create_evaluation_summary evaluations)
  ∧ (∀ (vid : String) (er : EvalResultIn),
        (evalRow (vid, er)).variant = vid
      ∧ ((er.summary.getD SummaryOpt.empty).accuracy_score = Option.none →
          (evalRow (vid, er)).accuracy = PyVal.str ("N/A"))
      ∧ ((er.summary.getD SummaryOpt.empty).completeness_pct = Option.none →
          (evalRow (vid, er)).completeness = PyVal.str ("N/A"))
      ∧ ((er.summary.getD SummaryOpt.empty).token_count = Option.none →
          (evalRow (vid, er)).token_count = PyVal.str ("N/A"))
      ∧ ((er.summary.getD SummaryOpt.empty).issue_count = Option.none →
          (evalRow (vid, er)).issues_found = PyVal.str ("N/A"))
      ∧ (er.clarity_score = Option.none → (evalRow (vid, er)).clarity = PyVal.str ("TBD"))
      ∧ (er.clarity_score = some Option.none → (evalRow (vid, er)).clarity = PyVal.none))
  ∧ (∀ (acc chk : List (List Char)) (resp : List Char) (tc : ℤ) (vid : String),
        (evalRow (vid, toEvalInput (full_evaluation acc chk resp tc Option.none))).clarity
          = PyVal.none) := by
  refine ⟨List.length_map evaluations evalRow, rfl,
    fun e he => List.mem_map_of_mem evalRow he, ?_, fun acc chk resp tc vid => rfl⟩
  intro vid er
  refine ⟨rfl, ?_, ?_, ?_, ?_, ?_, ?_⟩ <;> intro h <;> simp [evalRow, h]

/-- Claim C4 witness: on a record with no `summary` and no `clarity_score`
key, the accuracy cell is `"N/A"` and the clarity cell is `"TBD"`. -/
theorem aggregator_rows_spec_witness :
    (evalRow ("v1", { summary := Option.none, clarity_score := Option.none })).clarity
      = PyVal.str ("TBD")
  ∧ (evalRow ("v1", { summary := Option.none, clarity_score := Option.none })).accuracy
      = PyVal.str ("N/A") := by
  have h := (aggregator_rows_spec []).2.2.2.1 "v1"
    { summary := Option.none, clarity_score := Option.none }
  exact ⟨h.2.2.2.2.2.1 rfl, h.2.1 rfl⟩

/-- Claim C5 counterexample: the returned `words_per_token` is the quotient
rounded to two decimals, not the exact quotient: for a one-word response and
token count `3` the code returns `0.33`, but `wordCount / tokenCount = 1/3`. -/
theorem words_per_token_rounding_counterexample :
    (evaluate_token_efficiency ("hi".data) 3).word_count = 1
  ∧ (evaluate_token_efficiency ("hi".data) 3).words_per_token = 33/100
  ∧ ¬ ((evaluate_token_efficiency ("hi".data) 3).words_per_token
        = ((evaluate_token_efficiency ("hi".data) 3).word_count : ℚ) / 3) := by
  have hwc : (evaluate_token_efficiency ("hi".data) 3).word_count = 1 := by decide
  have hl : (pySplit ("hi".data)).length = 1 := by decide
  have hw : (evaluate_token_efficiency ("hi".data) 3).words_per_token
      = roundTo 2 ((1 : ℚ) / 3) := by
    show roundTo 2 (if (0 : ℤ) < 3 then ((pySplit ("hi".data)).length : ℚ) / ((3 : ℤ) : ℚ)
        else 0) = roundTo 2 ((1 : ℚ) / 3)
    rw [hl]
    norm_num
  have h33 : roundTo 2 ((1 : ℚ) / 3) = 33/100 := by norm_num [roundTo, roundHalfEven]
  refine ⟨hwc, hw.trans h33, ?_⟩
  rw [hw.trans h33, hwc]
  norm_num

/-- Claim C5 as amended: `evaluate_token_efficiency` returns the
whitespace-token word count, `words_per_token` equal to
`round(wordCount / tokenCount, 2)` (and `0` when the token count is not
positive — no division by zero), and a rating that is a pure step function of
the token count alone with the boundaries `199 → Concise`, `200 → Moderate`,
`499 → Moderate`, `500 → Verbose`. -/
theorem token_efficiency_spec (response : List Char) (token_count : ℤ) :
    (evaluate_token_efficiency response token_count).token_count = token_count
  ∧ (evaluate_token_efficiency response token_count).word_count = (pySplit response).length
  ∧ (evaluate_token_efficiency response token_count).words_per_token
      = (if 0 < token_count
          then roundTo 2 (((pySplit response).length : ℚ) / (token_count : ℚ)) else 0)
  ∧ (evaluate_token_efficiency response token_count).efficiency_rating
      = (if token_count < 200 then "Concise"
         else if token_count < 500 then "Moderate" else "Verbose")
  ∧ (evaluate_token_efficiency response 0).words_per_token = 0
  ∧ (evaluate_token_efficiency response 199).efficiency_rating = "Concise"
  ∧ (evaluate_token_efficiency response 200).efficiency_rating = "Moderate"
  ∧ (evaluate_token_efficiency response 499).efficiency_rating = "Moderate"
  ∧ (evaluate_token_efficiency response 500).efficiency_rating = "Verbose" := by
  have h00 : roundTo 2 (0 : ℚ) = 0 := by norm_num [roundTo, roundHalfEven]
  have hw : (evaluate_token_efficiency response token_count).words_per_token
      = roundTo 2 (if 0 < token_count
          then ((pySplit response).length : ℚ) / (token_count : ℚ) else 0) := rfl
  refine ⟨rfl, rfl, ?_, rfl, h00, rfl, rfl, rfl, rfl⟩
  rw [hw]
  by_cases h : 0 < token_count
  · rw [if_pos h, if_pos h]
  · rw [if_neg h, if_neg h, h00]

/-- Claim C6: `evaluate_completeness` returns
`percentage = coveredCount / totalChecklist * 100` rounded to one decimal
(`0` with an empty covered set when the checklist is empty) together with the
covered and missing item lists. -/
theorem completeness_matches_spec (completeness_checklist : List (List Char))
    (response : List Char) :
    (evaluate_completeness completeness_checklist response).covered_items
        = completeness_checklist.filter (fun c => decide (SpecMatched response c))
  ∧ (evaluate_completeness completeness_checklist response).missing_items
        = completeness_checklist.filter (fun c => !(decide (SpecMatched response c)))
  ∧ (evaluate_completeness completeness_checklist response).percentage
        = specCompletenessPct completeness_checklist response
  ∧ (evaluate_completeness [] response).percentage = 0
  ∧ (evaluate_completeness [] response).covered_items = [] := by
  have hf : ∀ c ∈ completeness_checklist, kwMatch (pyLower response) c
      = decide (SpecMatched response c) := fun c _ => kwMatch_eq_decide response c
  have h1 : completeness_checklist.filter (fun c => kwMatch (pyLower response) c)
      = completeness_checklist.filter (fun c => decide (SpecMatched response c)) :=
    List.filter_congr hf
  have h2 : completeness_checklist.filter (fun c => ! kwMatch (pyLower response) c)
      = completeness_checklist.filter (fun c => !(decide (SpecMatched response c))) :=
    List.filter_congr (fun c hc => by rw [hf c hc])
  have h10 : roundTo 1 (0 : ℚ) = 0 := by norm_num [roundTo, roundHalfEven]
  have hpct : (evaluate_completeness completeness_checklist response).percentage
      = roundTo 1 (if completeness_checklist.isEmpty then (0 : ℚ)
        else ((completeness_checklist.filter
            (fun c => kwMatch (pyLower response) c)).length : ℚ)
          / (completeness_checklist.length : ℚ) * 100) := rfl
  refine ⟨h1, h2, ?_, ?_, rfl⟩
  · rw [hpct]
    by_cases he : completeness_checklist = []
    · subst he
      simpa [specCompletenessPct] using h10
    · have he' : completeness_checklist.isEmpty = false := by
        simpa [List.isEmpty_iff] using he
      rw [he', if_neg (by simp), specCompletenessPct, if_neg he, h1,
        List.countP_eq_length_filter]
  · exact h10

/-- Claim C7: the matched and missing lists of `evaluate_accuracy` partition
the criteria list, and the covered and missing lists of
`evaluate_completeness` partition the checklist: each is a permutation of the
input obtained by classifying every entry exactly once, so the lengths add up
to the input length. -/
theorem classification_partitions (accuracy_criteria completeness_checklist : List (List Char))
    (response : List Char) :
    ((evaluate_accuracy accuracy_criteria response).matched_criteria ++
      (evaluate_accuracy accuracy_criteria response).missing_criteria).Perm accuracy_criteria
  ∧ (evaluate_accuracy accuracy_criteria response).matched_criteria.length +
      (evaluate_accuracy accuracy_criteria response).missing_criteria.length
        = accuracy_criteria.length
  ∧ ((evaluate_completeness completeness_checklist response).covered_items ++
      (evaluate_completeness completeness_checklist response).missing_items).Perm
        completeness_checklist
  ∧ (evaluate_completeness completeness_checklist response).covered_items.length +
      (evaluate_completeness completeness_checklist response).missing_items.length
        = completeness_checklist.length := by
  have h1 := List.filter_append_perm (fun c => kwMatch (pyLower response) c) accuracy_criteria
  have h2 := List.filter_append_perm (fun c => kwMatch (pyLower response) c)
    completeness_checklist
  have l1 := h1.length_eq
  have l2 := h2.length_eq
  rw [List.length_append] at l1 l2
  exact ⟨h1, l1, h2, l2⟩

/-- Claim C8: the Overconfidence check and the Missing Uncertainty Language
check of `detect_failure_behaviors` are independent: with an overconfidence
phrase present, a response that also contains a hedging phrase gets the
Overconfidence issue but not the Missing Uncertainty issue, while one with no
hedging phrase gets both. -/
theorem overconfidence_hedging_independent (response : List Char)
    (hoc : ∃ p ∈ overconfidence_phrases, Contains (pyLower response) p) :
    ((∃ p ∈ hedging_phrases, Contains (pyLower response) p) →
      ("Overconfidence" ∈ issueTypes response
        ∧ "Missing Uncertainty Language" ∉ issueTypes response))
  ∧ ((∀ p ∈ hedging_phrases, ¬ Contains (pyLower response) p) →
      ("Overconfidence" ∈ issueTypes response
        ∧ "Missing Uncertainty Language" ∈ issueTypes response)) := by
  have hocB : overconfidence_phrases.any (fun p => subIn p (pyLower response)) = true := by
    rw [List.any_eq_true]
    obtain ⟨p, hp, hc⟩ := hoc
    exact ⟨p, hp, (subIn_eq_true_iff p _).mpr hc⟩
  constructor
  · intro hhedge
    have hhB : hedging_phrases.any (fun p => subIn p (pyLower response)) = true := by
      rw [List.any_eq_true]
      obtain ⟨p, hp, hc⟩ := hhedge
      exact ⟨p, hp, (subIn_eq_true_iff p _).mpr hc⟩
    by_cases h3 : 3 < hallucinationStatCount response <;>
      by_cases h6 : 600 < (pySplit response).length <;>
        simp [issueTypes_eq, hocB, hhB, h3, h6]
  · intro hnone
    have hhB : hedging_phrases.any (fun p => subIn p (pyLower response)) = false := by
      cases hb : hedging_phrases.any (fun p => subIn p (pyLower response)) with
      | false => rfl
      | true =>
        obtain ⟨p, hp, hs⟩ := List.any_eq_true.mp hb
        exact absurd ((subIn_eq_true_iff p _).mp hs) (hnone p hp)
    by_cases h3 : 3 < hallucinationStatCount response <;>
      by_cases h6 : 600 < (pySplit response).length <;>
        simp [issueTypes_eq, hocB, hhB, h3, h6]

/-- Claim C8 witness: `"It will definitely work and could help"` is flagged
Overconfident but not Missing-Uncertainty; `"It will definitely work"` is
flagged with both. -/
theorem overconfidence_hedging_independent_witness :
    ("Overconfidence" ∈ issueTypes ("It will definitely work and could help".data)
      ∧ "Missing Uncertainty Language" ∉ issueTypes
          ("It will definitely work and could help".data))
  ∧ ("Overconfidence" ∈ issueTypes ("It will definitely work".data)
      ∧ "Missing Uncertainty Language" ∈ issueTypes ("It will definitely work".data)) :=
  ⟨(overconfidence_hedging_independent ("It will definitely work and could help".data)
      (by decide)).1 (by decide),
   (overconfidence_hedging_independent ("It will definitely work".data)
      (by decide)).2 (by decide)⟩

/-- Claim C9: every scorer is total (each is a Lean function defined for all
inputs) and the degenerate cases take the documented numeric fallbacks: empty
criteria give ratio `0`, score `0` and empty matched and missing lists, an
empty checklist gives percentage `0` and empty item lists, token count `0`
gives `words_per_token = 0`, and the failure detector always returns a list
whose length is its reported `issue_count`. -/
theorem degenerate_inputs_defined (response : List Char) :
    (evaluate_accuracy [] response).ratio = 0
  ∧ (evaluate_accuracy [] response).score = 0
  ∧ (evaluate_accuracy [] response).matched_criteria = []
  ∧ (evaluate_accuracy [] response).missing_criteria = []
  ∧ (evaluate_completeness [] response).percentage = 0
  ∧ (evaluate_completeness [] response).covered_items = []
  ∧ (evaluate_completeness [] response).missing_items = []
  ∧ (evaluate_token_efficiency response 0).words_per_token = 0
  ∧ (detect_failure_behaviors response).issue_count
      = (detect_failure_behaviors response).issues.length := by
  have h00 : roundTo 2 (0 : ℚ) = 0 := by norm_num [roundTo, roundHalfEven]
  have h10 : roundTo 1 (0 : ℚ) = 0 := by norm_num [roundTo, roundHalfEven]
  have hscore : (evaluate_accuracy [] response).score
      = (if (4 : ℚ)/5 ≤ (0 : ℚ) then 2 else if (2 : ℚ)/5 ≤ (0 : ℚ) then 1 else 0) := rfl
  refine ⟨h00, ?_, rfl, rfl, h10, rfl, rfl, h00, rfl⟩
  rw [hscore]
  norm_num

/-- Claim C10: an empty or whitespace-only criterion has an empty keyword
token list, so it is never matched and is always classified as missing by
both `evaluate_accuracy` and `evaluate_completeness`, whatever the response. -/
theorem whitespace_criterion_never_matches (response criterion : List Char)
    (accuracy_criteria completeness_checklist : List (List Char))
    (hws : ∀ c ∈ criterion, c.isWhitespace = true) :
    criterionKeywords criterion = []
  ∧ criterion ∉ (evaluate_accuracy accuracy_criteria response).matched_criteria
  ∧ (criterion ∈ accuracy_criteria →
      criterion ∈ (evaluate_accuracy accuracy_criteria response).missing_criteria)
  ∧ criterion ∉ (evaluate_completeness completeness_checklist response).covered_items
  ∧ (criterion ∈ completeness_checklist →
      criterion ∈ (evaluate_completeness completeness_checklist response).missing_items) := by
  have hlow : ∀ c ∈ pyLower criterion, c.isWhitespace = true := by
    intro c hc
    obtain ⟨a, ha, rfl⟩ := List.mem_map.mp hc
    exact toLower_isWhitespace a (hws a ha)
  have hkeys : criterionKeywords criterion = [] := pySplitAux_eq_nil (pyLower criterion) hlow
  have hkm : ∀ rl, kwMatch rl criterion = false := by
    intro rl
    simp only [kwMatch, hkeys, List.any_nil]
  have hma : (evaluate_accuracy accuracy_criteria response).matched_criteria
      = accuracy_criteria.filter (fun c => kwMatch (pyLower response) c) := rfl
  have hms : (evaluate_accuracy accuracy_criteria response).missing_criteria
      = accuracy_criteria.filter (fun c => ! kwMatch (pyLower response) c) := rfl
  have hca : (evaluate_completeness completeness_checklist response).covered_items
      = completeness_checklist.filter (fun c => kwMatch (pyLower response) c) := rfl
  have hcs : (evaluate_completeness completeness_checklist response).missing_items
      = completeness_checklist.filter (fun c => ! kwMatch (pyLower response) c) := rfl
  refine ⟨hkeys, ?_, ?_, ?_, ?_⟩
  · rw [hma]
    intro hmem
    have := (List.mem_filter.mp hmem).2
    simp [hkm] at this
  · intro hin
    rw [hms]
    exact List.mem_filter.mpr ⟨hin, by simp [hkm]⟩
  · rw [hca]
    intro hmem
    have := (List.mem_filter.mp hmem).2
    simp [hkm] at this
  · intro hin
    rw [hcs]
    exact List.mem_filter.mpr ⟨hin, by simp [hkm]⟩

/-- Claim C10 witness: the whitespace-only criterion `"  "` is classified as
missing, never matched, against a concrete response. -/
theorem whitespace_criterion_never_matches_witness :
    criterionKeywords ("  ".data) = []
  ∧ ("  ".data) ∉ (evaluate_accuracy [("  ".data)] ("any response".data)).matched_criteria
  ∧ ("  ".data) ∈ (evaluate_accuracy [("  ".data)] ("any response".data)).missing_criteria := by
  have h := whitespace_criterion_never_matches ("any response".data) ("  ".data)
    [("  ".data)] [("  ".data)] (by decide)
  exact ⟨h.1, h.2.1, h.2.2.1 (by decide)⟩

end LLMLab
